import Mathlib

/-!
Verification of the client-resident session and identity manager
(ekrsw/knowledge2 frontend).  The definitions below are a shallow
embedding of the session-lifecycle logic found in
`src/frontend/src/context/AuthContext.jsx`, the view-level fetch and
logout handlers in `src/frontend/src/App.jsx` (Navbar),
`src/frontend/src/app/home/page.tsx`, `src/frontend/src/pages/Login.jsx`,
and the password-change form logic in
`src/frontend/src/app/change-password/page.tsx`.
Network interactions are modelled by passing the outcome of each HTTP
call as an explicit argument; `localStorage` is modelled by `Store`.
-/

/-- The cached user profile record (the `User` interface of
`app/home/page.tsx` lines 8–15). -/
structure User where
  id : String
  username : String
  full_name : String
  is_admin : Bool
  created_at : String
  updated_at : String
deriving DecidableEq

/-- The persisted Session Store: the `access_token` and `refresh_token`
slots of `localStorage`.  `none` models an absent key. -/
structure Store where
  access_token : Option String
  refresh_token : Option String
deriving DecidableEq

/-- The provider state of `AuthContext.jsx`: the `user` and `loading`
React states together with the persisted store. -/
structure AuthState where
  store : Store
  user : Option User
  loading : Bool
deriving DecidableEq

/-- Outcome of a `GET /auth/me` request as observed by the client:
a successful user payload, a 401 response, or any other failure
(network fault or a non-401 error status). -/
inductive MeResult where
  | success (u : User)
  | unauthorized
  | otherError
deriving DecidableEq

/-- Outcome of the `POST /auth/login` exchange: a response whose body
carries a truthy `access_token` (with the accompanying refresh token),
a 2xx response without an `access_token` field, or a thrown error
(rejected credentials or network fault). -/
inductive LoginResult where
  | success (access refresh : String)
  | noToken
  | failure
deriving DecidableEq

/-- Outcome of the best-effort `POST /auth/logout` revoke call. -/
inductive RevokeOutcome where
  | ok
  | error
  | timeout
deriving DecidableEq

/-- The continuation of `fetchUser` (`AuthContext.jsx` lines 71–86) that
runs once the `GET /auth/me` promise settles: on success `setUser(data)`;
on a 401 remove both tokens and `setUser(null)`; on any other error do
nothing; in all cases `setLoading(false)`.  The code performs no check
that the session is still the one the request was issued for. -/
def fetchUserCompletion (s : AuthState) (res : MeResult) : AuthState :=
  match res with
  | .success u => { s with user := some u, loading := false }
  | .unauthorized => { s with store := ⟨none, none⟩, user := none, loading := false }
  | .otherError => { s with loading := false }

/-- `fetchUser` of `AuthContext.jsx` lines 63–87: if no access token is
stored it returns after `setLoading(false)` without any network call;
otherwise it issues the identity request and runs the completion. -/
def fetchUser (s : AuthState) (res : MeResult) : AuthState :=
  match s.store.access_token with
  | none => { s with loading := false }
  | some _ => fetchUserCompletion s res

/-- Whether `fetchUser` issues a network request from state `s`
(`AuthContext.jsx` line 66: it returns early when no token is stored). -/
def fetchUserMakesCall (s : AuthState) : Bool :=
  s.store.access_token.isSome

/-- `isAuthenticated` as exposed by the provider value
(`AuthContext.jsx` line 98: `isAuthenticated: !!user`). -/
def isAuthenticated (s : AuthState) : Bool :=
  s.user.isSome

/-- `login` of `AuthContext.jsx` lines 18–36: on a response with an
`access_token` it stores both tokens and awaits `fetchUser` (whose
`/auth/me` outcome is `meRes`); on a token-less response it returns
without effect; a thrown error propagates leaving the state unchanged. -/
def login (s : AuthState) (res : LoginResult) (meRes : MeResult) : AuthState :=
  match res with
  | .success a r => fetchUser { s with store := ⟨some a, some r⟩ } meRes
  | .noToken => s
  | .failure => s

/-- `logout` of `AuthContext.jsx` lines 38–61: the revoke call's outcome
is caught and ignored, and the `finally` block removes both tokens and
clears the user unconditionally. -/
def logout (s : AuthState) (_out : RevokeOutcome) : AuthState :=
  { s with store := ⟨none, none⟩, user := none }

/-- Observable events of one `logout()` run, in program order. -/
inductive Ev where
  | revokeRequest
  | revokeSettled
  | storeCleared
deriving DecidableEq

/-- The event order of `logout` (`AuthContext.jsx` lines 38–61): when a
token is stored, the revoke request is issued and awaited, and only
after the promise settles (resolves or rejects) does the `finally`
block clear the store; the trace is the same for every revoke outcome. -/
def logoutTrace (st : Store) (_out : RevokeOutcome) : List Ev :=
  match st.access_token with
  | some _ => [.revokeRequest, .revokeSettled, .storeCleared]
  | none => [.storeCleared]

/-- The state and navigation effect of a view-level handler: the
resulting store, the view's local user state, and the target of a
`router.push` / `navigate` call when one is issued. -/
structure ViewEffect where
  store : Store
  user : Option User
  redirectTo : Option String
deriving DecidableEq

/-- `fetchUserInfo` of the dashboard (`app/home/page.tsx` lines 25–51
and the react-router variant): with no token it redirects to `/login`;
on success it caches the user; on a 401 it removes both tokens and
redirects to `/login`; on any other error it shows an error and keeps
the store. -/
def homeFetchUserInfo (st : Store) (res : MeResult) : ViewEffect :=
  match st.access_token with
  | none => ⟨st, none, some "/login"⟩
  | some _ =>
    match res with
    | .success u => ⟨st, some u, none⟩
    | .unauthorized => ⟨⟨none, none⟩, none, some "/login"⟩
    | .otherError => ⟨st, none, none⟩

/-- `fetchUserInfo` of the Navbar (`App.jsx` lines 48–63): with no token
it returns; on success it caches the user; every error — a 401
included — is only logged: the store is untouched, the previous user
state kept, and no redirect is issued. -/
def navbarFetchUserInfo (st : Store) (prev : Option User) (res : MeResult) : ViewEffect :=
  match st.access_token with
  | none => ⟨st, prev, none⟩
  | some _ =>
    match res with
    | .success u => ⟨st, some u, none⟩
    | .unauthorized => ⟨st, prev, none⟩
    | .otherError => ⟨st, prev, none⟩

/-- `handleLogout` of the dashboard (`app/home/page.tsx` lines 56–79):
the revoke outcome is caught and ignored; the `finally` block removes
both tokens and navigates to `/login` unconditionally. -/
def handleLogout (_st : Store) (_out : RevokeOutcome) : Store × Option String :=
  (⟨none, none⟩, some "/login")

/-- `handleSubmit` of the login page (`pages/Login.jsx` lines 12–38):
on a response with an `access_token` it stores both tokens and
navigates to `/home`; a token-less response or a thrown error leaves
the store untouched (the error branch only sets an inline message). -/
def loginPageSubmit (st : Store) (res : LoginResult) : Store × Option String :=
  match res with
  | .success a r => (⟨some a, some r⟩, some "/home")
  | .noToken => (st, none)
  | .failure => (st, none)

/-- Render decision of a page component. -/
inductive RenderOutcome where
  | render
  | redirect (dest : String)
deriving DecidableEq

/-- The render path of `ChangePasswordPage`
(`app/change-password/page.tsx` lines 116–228): the component body
returns the form markup unconditionally — it consults neither the
session store nor any auth state before rendering; the only session
check sits inside `handleSubmit`. -/
def changePasswordRender (_st : Store) : RenderOutcome :=
  .render

/-- The password-change form state (`app/change-password/page.tsx`
lines 8–12). -/
structure PwForm where
  oldPassword : String
  newPassword : String
  confirmPassword : String
deriving DecidableEq

/-- `validateForm` of `app/change-password/page.tsx` lines 33–58:
returns true exactly when the `newErrors` object stays empty — the old
password is present, the new password is present and at least 6
characters, the confirmation is present and equal to the new password,
and the new password differs from the old one. -/
def validateForm (f : PwForm) : Bool :=
  let errOld := f.oldPassword == ""
  let errNew := (f.newPassword == "") || (f.newPassword.length < 6)
  let errConfirm := (f.confirmPassword == "") || (f.newPassword != f.confirmPassword)
  let errSame := f.oldPassword == f.newPassword
  !(errOld || errNew || errConfirm || errSame)

/-- Outcome of the `PUT /auth/password` request: success, a 400 with a
detail message, another non-ok status (e.g. 401), or a thrown error. -/
inductive PwResult where
  | ok
  | badRequest (detail : Option String)
  | otherHttpError (status : Nat)
  | networkFault
deriving DecidableEq

/-- Which branch of `handleSubmit` ran. -/
inductive SubmitOutcome where
  | validationFailed
  | redirectLogin
  | succeeded
  | policyError (detail : Option String)
  | genericError
  | networkError
deriving DecidableEq

/-- The observable effect of one `handleSubmit` call: whether the PUT
request was dispatched, the resulting store, any navigation issued,
and the branch taken. -/
structure SubmitEffect where
  httpSent : Bool
  store : Store
  redirectTo : Option String
  outcome : SubmitOutcome
deriving DecidableEq

/-- `handleSubmit` of `app/change-password/page.tsx` lines 60–114: an
invalid form returns before any effect; with no stored token it
navigates to `/login` without sending the request; otherwise the PUT is
sent and the response handled — success schedules a `/home` navigation,
a 400 sets an inline policy error, any other status or a thrown error
sets a generic message.  No branch writes to the session store. -/
def handleSubmit (f : PwForm) (st : Store) (res : PwResult) : SubmitEffect :=
  if !validateForm f then ⟨false, st, none, .validationFailed⟩
  else
    match st.access_token with
    | none => ⟨false, st, some "/login", .redirectLogin⟩
    | some _ =>
      match res with
      | .ok => ⟨true, st, some "/home", .succeeded⟩
      | .badRequest d => ⟨true, st, none, .policyError d⟩
      | .otherHttpError _ => ⟨true, st, none, .genericError⟩
      | .networkFault => ⟨true, st, none, .networkError⟩

/-- The provider state at mount with persisted store `st`
(`AuthContext.jsx` lines 15–16: `user = null`, `loading = true`). -/
def bootstrapInit (st : Store) : AuthState :=
  ⟨st, none, true⟩

/-- The startup reconciliation: the mount effect
(`AuthContext.jsx` lines 89–91) runs `fetchUser` once on the initial
state. -/
def bootstrap (st : Store) (res : MeResult) : AuthState :=
  fetchUser (bootstrapInit st) res

/-- A concrete user record used in counterexamples. -/
def aliceUser : User :=
  ⟨"u1", "alice", "Alice", false, "2024-01-01", "2024-01-02"⟩

/-- The characterisation of `validateForm`: it succeeds exactly when
the four client-side conditions hold. -/
theorem validateForm_eq_true_iff (f : PwForm) :
    validateForm f = true ↔
      (f.oldPassword ≠ "" ∧ 6 ≤ f.newPassword.length ∧
        f.confirmPassword = f.newPassword ∧ f.newPassword ≠ f.oldPassword) := by
  have hempty : 6 ≤ f.newPassword.length → ¬f.newPassword = "" := by
    intro h he
    rw [he] at h
    exact absurd h (by decide)
  have hc : f.newPassword = f.confirmPassword ↔ f.confirmPassword = f.newPassword := eq_comm
  have ho : f.oldPassword = f.newPassword ↔ f.newPassword = f.oldPassword := eq_comm
  have hce : f.confirmPassword = f.newPassword → f.confirmPassword = "" → f.newPassword = "" := by
    intro h1 h2
    rw [← h1, h2]
  unfold validateForm
  simp only [Bool.not_eq_true', Bool.or_eq_false_iff, beq_eq_false_iff_ne, ne_eq,
    bne_eq_false_iff_eq, decide_eq_false_iff_not, Nat.not_lt]
  tauto

/-- C1 counterexample: two states with an identical, present Session
(tokens `A1`/`R1` stored) are classified differently by the exposed
`isAuthenticated` flag — with an empty Identity Cache the flag is
`false`, with a cached user it is `true` — so the classification is not
a function of Session presence, and a session-holding state with no
cached User is reported unauthenticated. -/
theorem c1_counterexample :
    (⟨⟨some "A1", some "R1"⟩, none, false⟩ : AuthState).store
      = (⟨⟨some "A1", some "R1"⟩, some aliceUser, false⟩ : AuthState).store
  ∧ isAuthenticated ⟨⟨some "A1", some "R1"⟩, none, false⟩ = false
  ∧ isAuthenticated ⟨⟨some "A1", some "R1"⟩, some aliceUser, false⟩ = true := by
  decide

/-- C1 (amended): the exposed authenticated/unauthenticated
classification is a function of the Identity Cache, not of Session
presence: `isAuthenticated` agrees on any two states with the same
cached user regardless of their stores, is `false` whenever the cache
is empty (even with tokens persisted), and `true` whenever the cache
holds a User (protected views gate on token presence separately). -/
theorem c1_isAuthenticated_is_cache_function (st st' : Store) (u : Option User)
    (l l' : Bool) :
    isAuthenticated ⟨st, u, l⟩ = isAuthenticated ⟨st', u, l'⟩
  ∧ isAuthenticated ⟨st, none, l⟩ = false
  ∧ (∀ v : User, isAuthenticated ⟨st, some v, l⟩ = true) := by
  refine ⟨rfl, rfl, fun v => rfl⟩

/-- C2 counterexample: the Navbar identity fetch is an authenticated
call site, yet when it receives a 401 the Session Store keeps both
tokens, the cache write does not happen, and no redirect to login is
issued — the 401 is absorbed by a log statement only. -/
theorem c2_counterexample :
    navbarFetchUserInfo ⟨some "A1", some "R1"⟩ none .unauthorized
      = ⟨⟨some "A1", some "R1"⟩, none, none⟩
  ∧ (navbarFetchUserInfo ⟨some "A1", some "R1"⟩ none .unauthorized).store
      ≠ ⟨none, none⟩
  ∧ (navbarFetchUserInfo ⟨some "A1", some "R1"⟩ none .unauthorized).redirectTo
      = none := by
  decide

/-- C2 (amended): the 401 invalidation reaction holds at the Lifecycle
Controller's `fetchUser` (cache and store emptied) and at the
dashboard's identity fetch (store emptied and redirect to login), but
not at every authenticated call site: the Navbar identity fetch leaves
the store and its user state untouched with no redirect, and the
password-change submission surfaces a 401 as a generic failure message
while leaving the store untouched and issuing no redirect. -/
theorem c2_unauthorized_reaction_per_call_site (a : String) (r : Option String)
    (u0 : Option User) (l : Bool) (f : PwForm) (hf : validateForm f = true) :
    fetchUser ⟨⟨some a, r⟩, u0, l⟩ .unauthorized = ⟨⟨none, none⟩, none, false⟩
  ∧ homeFetchUserInfo ⟨some a, r⟩ .unauthorized = ⟨⟨none, none⟩, none, some "/login"⟩
  ∧ navbarFetchUserInfo ⟨some a, r⟩ u0 .unauthorized = ⟨⟨some a, r⟩, u0, none⟩
  ∧ handleSubmit f ⟨some a, r⟩ (.otherHttpError 401)
      = ⟨true, ⟨some a, r⟩, none, .genericError⟩ := by
  refine ⟨rfl, rfl, rfl, ?_⟩
  simp [handleSubmit, hf]

/-- C2 witness: the amended per-call-site reaction instantiated at the
concrete store `A1`/`R1` and a concrete valid password form. -/
theorem c2_witness :
    fetchUser ⟨⟨some "A1", some "R1"⟩, none, false⟩ .unauthorized
      = ⟨⟨none, none⟩, none, false⟩
  ∧ homeFetchUserInfo ⟨some "A1", some "R1"⟩ .unauthorized
      = ⟨⟨none, none⟩, none, some "/login"⟩
  ∧ navbarFetchUserInfo ⟨some "A1", some "R1"⟩ none .unauthorized
      = ⟨⟨some "A1", some "R1"⟩, none, none⟩
  ∧ handleSubmit ⟨"old", "newpass", "newpass"⟩ ⟨some "A1", some "R1"⟩
        (.otherHttpError 401)
      = ⟨true, ⟨some "A1", some "R1"⟩, none, .genericError⟩ :=
  c2_unauthorized_reaction_per_call_site "A1" (some "R1") none false
    ⟨"old", "newpass", "newpass"⟩ (by decide)

/-- C3 counterexample: with the session `A1`/`R1` persisted, the state
before the identity fetch resolves is classified unauthenticated (not
authenticated immediately as claimed), and after a non-Unauthorized
refresh failure the state is still unauthenticated even though the
Session Store keeps both tokens. -/
theorem c3_counterexample :
    isAuthenticated (bootstrapInit ⟨some "A1", some "R1"⟩) = false
  ∧ isAuthenticated (bootstrap ⟨some "A1", some "R1"⟩ .otherError) = false
  ∧ (bootstrap ⟨some "A1", some "R1"⟩ .otherError).store
      = ⟨some "A1", some "R1"⟩ := by
  decide

/-- C3 (amended): `bootstrap` with no persisted access token yields an
unauthenticated state without any network call; with a persisted
session the exposed state is unauthenticated (still loading) until the
identity fetch resolves, becomes authenticated exactly when the fetch
succeeds, clears the Session Store on `Unauthorized`, and on any other
failure keeps the store while still exposing unauthenticated. -/
theorem c3_bootstrap_behaviour (a : String) (r0 : Option String) :
    (∀ (r : Option String) (res : MeResult),
        fetchUserMakesCall (bootstrapInit ⟨none, r⟩) = false
      ∧ bootstrap ⟨none, r⟩ res = ⟨⟨none, r⟩, none, false⟩)
  ∧ fetchUserMakesCall (bootstrapInit ⟨some a, r0⟩) = true
  ∧ isAuthenticated (bootstrapInit ⟨some a, r0⟩) = false
  ∧ (∀ u, isAuthenticated (bootstrap ⟨some a, r0⟩ (.success u)) = true
        ∧ (bootstrap ⟨some a, r0⟩ (.success u)).store = ⟨some a, r0⟩)
  ∧ isAuthenticated (bootstrap ⟨some a, r0⟩ .unauthorized) = false
  ∧ (bootstrap ⟨some a, r0⟩ .unauthorized).store = ⟨none, none⟩
  ∧ isAuthenticated (bootstrap ⟨some a, r0⟩ .otherError) = false
  ∧ (bootstrap ⟨some a, r0⟩ .otherError).store = ⟨some a, r0⟩ := by
  refine ⟨fun r res => ⟨rfl, rfl⟩, rfl, rfl, fun u => ⟨rfl, rfl⟩, rfl, rfl, rfl, rfl⟩

/-- C4 counterexample: a successful login persisting `A1`/`R1` followed
by an `Unauthorized` outcome of the triggered identity refresh leaves
the Session Store empty — the refresh outcome does undo the login's
persistence, contradicting the claim that the pair remains for any
refresh outcome. -/
theorem c4_counterexample :
    (login ⟨⟨none, none⟩, none, false⟩ (.success "A1" "R1") .unauthorized).store
      = ⟨none, none⟩ := by
  decide

/-- C4 (amended): a successful login persists the returned pair and
triggers the identity refresh; a successful refresh or a
non-Unauthorized refresh failure leaves the persisted pair in the
store, but an `Unauthorized` refresh removes the just-persisted pair. -/
theorem c4_login_persistence_vs_refresh (s : AuthState) (a rt : String) :
    (∀ u, (login s (.success a rt) (.success u)).store = ⟨some a, some rt⟩)
  ∧ (login s (.success a rt) .otherError).store = ⟨some a, some rt⟩
  ∧ (login s (.success a rt) .unauthorized).store = ⟨none, none⟩ := by
  refine ⟨fun u => rfl, rfl, rfl⟩

/-- C5 counterexample: with no Session persisted at all, the
password-change view still renders its form — it consults no route
guard before committing to render and issues no redirect to login. -/
theorem c5_counterexample :
    changePasswordRender ⟨none, none⟩ = .render
  ∧ changePasswordRender ⟨none, none⟩ ≠ .redirect "/login" := by
  decide

/-- C5 (amended): the dashboard consults the session before rendering —
with no access token it redirects to the login entry point and caches
no user, and it renders the fetched user only with a token present —
while the password-change view renders unconditionally with no
render-time guard, deferring its session check to submit time, where a
valid form with no stored token redirects to login without sending the
request. -/
theorem c5_guard_per_view (r : Option String) (res : MeResult) (st : Store)
    (f : PwForm) (res' : PwResult) (hf : validateForm f = true) :
    (homeFetchUserInfo ⟨none, r⟩ res).redirectTo = some "/login"
  ∧ (homeFetchUserInfo ⟨none, r⟩ res).user = none
  ∧ (∀ a u, homeFetchUserInfo ⟨some a, r⟩ (.success u) = ⟨⟨some a, r⟩, some u, none⟩)
  ∧ changePasswordRender st = .render
  ∧ handleSubmit f ⟨none, r⟩ res' = ⟨false, ⟨none, r⟩, some "/login", .redirectLogin⟩ := by
  refine ⟨rfl, rfl, fun a u => rfl, rfl, ?_⟩
  simp [handleSubmit, hf]

/-- C5 witness: the per-view guard behaviour instantiated at a concrete
refresh token, fetch outcome, store and valid password form. -/
theorem c5_witness :
    (homeFetchUserInfo ⟨none, some "R1"⟩ .otherError).redirectTo = some "/login"
  ∧ (homeFetchUserInfo ⟨none, some "R1"⟩ .otherError).user = none
  ∧ (∀ a u, homeFetchUserInfo ⟨some a, some "R1"⟩ (.success u)
        = ⟨⟨some a, some "R1"⟩, some u, none⟩)
  ∧ changePasswordRender ⟨none, none⟩ = .render
  ∧ handleSubmit ⟨"old", "newpass", "newpass"⟩ ⟨none, some "R1"⟩ .ok
      = ⟨false, ⟨none, some "R1"⟩, some "/login", .redirectLogin⟩ :=
  c5_guard_per_view (some "R1") .otherError ⟨none, none⟩
    ⟨"old", "newpass", "newpass"⟩ .ok (by decide)

/-- C6: after any login (successful or not, with any refresh outcome)
followed by a logout, the Session Store holds neither token and the
Identity Cache is empty, for every revoke outcome (success, error or
timeout); the dashboard's logout handler likewise empties the store for
every revoke outcome. -/
theorem c6_login_then_logout_clears_store (s : AuthState) (lres : LoginResult)
    (mres : MeResult) (out : RevokeOutcome) :
    (logout (login s lres mres) out).store = ⟨none, none⟩
  ∧ (logout (login s lres mres) out).user = none
  ∧ (∀ (st : Store) (out' : RevokeOutcome),
        (handleLogout st out').1 = ⟨none, none⟩) := by
  refine ⟨rfl, rfl, fun st out' => rfl⟩

/-- C7 counterexample: in the event order of `logout` on the stored
session `A1`/`R1`, the store-clearing step comes after the revoke call
settles — the clearing waits for the awaited revoke promise to resolve
or reject rather than happening immediately while it is pending. -/
theorem c7_counterexample :
    logoutTrace ⟨some "A1", some "R1"⟩ .timeout
      = [.revokeRequest, .revokeSettled, .storeCleared]
  ∧ (logoutTrace ⟨some "A1", some "R1"⟩ .timeout).indexOf .storeCleared
      > (logoutTrace ⟨some "A1", some "R1"⟩ .timeout).indexOf .revokeSettled := by
  decide

/-- C7 (amended): when `logout()` runs with a stored access token, the
revoke call is issued and awaited and the Session Store is cleared only
after that call settles (resolves or rejects); the clearing is
unconditional and the revoke outcome is ignored for control flow — the
resulting state is identical for every outcome and its store is empty. -/
theorem c7_logout_clears_after_revoke_settles (a : String) (r : Option String)
    (s : AuthState) (out out' : RevokeOutcome) :
    logoutTrace ⟨some a, r⟩ out = [.revokeRequest, .revokeSettled, .storeCleared]
  ∧ logout s out = logout s out'
  ∧ (logout s out).store = ⟨none, none⟩ := by
  refine ⟨rfl, rfl, rfl⟩

/-- C8: the code evaluated at the failing interleaving — a user is
logged in with session `A1`/`R1`, an identity refresh is in flight,
`logout()` completes (store emptied, cache emptied), and then the stale
successful `/auth/me` response arrives: the unguarded completion
(`setUser(response.data)`) repopulates the Identity Cache with the
stale user even though the Session Store is empty. -/
theorem c8_stale_refresh_repopulates_cache :
    fetchUserCompletion
        (logout ⟨⟨some "A1", some "R1"⟩, some aliceUser, false⟩ .ok)
        (.success aliceUser)
      = ⟨⟨none, none⟩, some aliceUser, false⟩
  ∧ isAuthenticated
        (fetchUserCompletion
          (logout ⟨⟨some "A1", some "R1"⟩, some aliceUser, false⟩ .ok)
          (.success aliceUser)) = true := by
  decide

/-- C9: a failed login — a thrown exchange error (wrong credentials or
network fault) or a response without an `access_token` — leaves the
whole prior state, in particular both persisted tokens, byte-for-byte
unchanged, both in the Lifecycle Controller's `login` and in the login
page's submit handler (which also issues no navigation on failure). -/
theorem c9_failed_login_preserves_session (s : AuthState) (mres : MeResult)
    (st : Store) :
    login s .failure mres = s
  ∧ login s .noToken mres = s
  ∧ loginPageSubmit st .failure = (st, none)
  ∧ loginPageSubmit st .noToken = (st, none) := by
  refine ⟨rfl, rfl, rfl, rfl⟩

/-- C10: whenever the old password is empty, the new password is
shorter than 6 characters, the confirmation differs from the new
password, or the new password equals the old one, `handleSubmit`
returns the no-effect result — no HTTP request, store unchanged, no
navigation; conversely the PUT request is dispatched only when all four
conditions pass; and no branch of `handleSubmit` ever mutates the
stored session state. -/
theorem c10_validation_gates_submit (f : PwForm) (st : Store) (res : PwResult) :
    (f.oldPassword = "" ∨ f.newPassword.length < 6 ∨
        f.confirmPassword ≠ f.newPassword ∨ f.newPassword = f.oldPassword →
      handleSubmit f st res = ⟨false, st, none, .validationFailed⟩)
  ∧ ((handleSubmit f st res).httpSent = true →
      f.oldPassword ≠ "" ∧ 6 ≤ f.newPassword.length ∧
        f.confirmPassword = f.newPassword ∧ f.newPassword ≠ f.oldPassword)
  ∧ (handleSubmit f st res).store = st := by
  by_cases hv : validateForm f = true
  · have hprop := (validateForm_eq_true_iff f).mp hv
    refine ⟨?_, fun _ => hprop, ?_⟩
    · intro hbad
      exfalso
      obtain ⟨h1, h2, h3, h4⟩ := hprop
      rcases hbad with h | h | h | h
      · exact h1 h
      · exact absurd h2 (Nat.not_le.mpr h)
      · exact h h3
      · exact h4 h
    · unfold handleSubmit
      rw [hv]
      cases st with
      | mk at0 rt0 =>
        cases at0 with
        | none => rfl
        | some a => cases res <;> rfl
  · have hv' : validateForm f = false := by
      cases h : validateForm f with
      | false => rfl
      | true => exact absurd h hv
    refine ⟨fun _ => ?_, ?_, ?_⟩
    · unfold handleSubmit
      rw [hv']
      rfl
    · unfold handleSubmit
      rw [hv']
      intro h
      exact absurd h (by simp)
    · unfold handleSubmit
      rw [hv']
      rfl

/-- C10 witness: `handleSubmit` with an empty old password, a stored
session and a would-be successful response performs no effect. -/
theorem c10_witness :
    handleSubmit ⟨"", "newpass", "newpass"⟩ ⟨some "A1", some "R1"⟩ .ok
      = ⟨false, ⟨some "A1", some "R1"⟩, none, .validationFailed⟩ :=
  (c10_validation_gates_submit ⟨"", "newpass", "newpass"⟩
    ⟨some "A1", some "R1"⟩ .ok).1 (Or.inl rfl)
